import Mathlib

/-!
Verification of the session/counter state machine of the Picking-Rate tool.

The embedding mirrors `src/py/cnt.py` (the full widget, class `SuccessRateUI`)
and, where noted, the earlier counter-only variant `src/cnt.py` (namespace `V0`).
Timestamps and the wall clock are modelled as rationals (epoch seconds); each
method that reads `time.time()` receives the current time `now` explicitly.
Label widgets are modelled as the values handed to their format strings.
-/

/-- `pct(n, d)` from `src/py/cnt.py` line 8 (identical in `src/cnt.py` line 8):
`0.0 if d == 0 else (n / d) * 100.0`. -/
def pct (n d : ℚ) : ℚ :=
  if d = 0 then 0 else n / d * 100

/-- `per_minute(total, seconds)` from `src/py/cnt.py` lines 11-14:
`0.0 if seconds <= 0 else total * 60.0 / seconds`. -/
def per_minute (total seconds : ℚ) : ℚ :=
  if seconds ≤ 0 then 0 else total * 60 / seconds

/-- The `int(max(0, seconds))` clamp at the top of `fmt_hms`
(`src/py/cnt.py` line 17); for nonnegative arguments Python `int` is floor. -/
def clampSecs (seconds : ℚ) : ℕ :=
  (⌊max 0 seconds⌋).toNat

/-- `fmt_hms(seconds)` from `src/py/cnt.py` lines 16-21, returning the
`(h, m, s)` components of the `"{h:02d}:{m:02d}:{s:02d}"` display. -/
def fmt_hms (seconds : ℚ) : ℕ × ℕ × ℕ :=
  let s := clampSecs seconds
  (s / 3600, s % 3600 / 60, s % 60)

/-- The mutable state of the `SuccessRateUI` widget (`src/py/cnt.py`
lines 29-37): counters, running flag, session timestamps `t0`/`t1`,
the 1-second timer, and the three labels (modelled as the values fed to
their format strings: `lbl_rate` holds `(pct, success, total)`,
`lbl_time` holds the `fmt_hms` triple, `lbl_throughput` holds `ipm`). -/
structure SuccessRateUI where
  success : ℕ
  fail : ℕ
  running : Bool
  t0 : Option ℚ
  t1 : Option ℚ
  timerOn : Bool
  lbl_rate : ℚ × ℕ × ℕ
  lbl_time : ℕ × ℕ × ℕ
  lbl_throughput : ℚ
  deriving Repr, DecidableEq

/-- The three session states named by the spec.  The widget stores no enum;
the state is carried by `running` and the timestamps (see `stateOf`). -/
inductive SessionState where
  | Idle
  | Running
  | Finished
  deriving Repr, DecidableEq

/-- The session state the spec ascribes to a widget state: `Running` while
`self.running`, `Finished` once a stop time `t1` is recorded, else `Idle`. -/
def stateOf (u : SuccessRateUI) : SessionState :=
  if u.running then .Running
  else if u.t1.isSome then .Finished
  else .Idle

/-- `update_stats` (`src/py/cnt.py` lines 184-186): recomputes the
success-rate label from the counters. -/
def update_stats (u : SuccessRateUI) : SuccessRateUI :=
  let total := u.success + u.fail
  { u with lbl_rate := (pct u.success total, u.success, total) }

/-- The `elapsed` local of `update_time_stats` (`src/py/cnt.py` lines
190-194): `0` when `t0` is unset, else `(t1 if set else now) - t0`. -/
def rawElapsed (u : SuccessRateUI) (now : ℚ) : ℚ :=
  match u.t0 with
  | none => 0
  | some a => u.t1.getD now - a

/-- `update_time_stats` (`src/py/cnt.py` lines 188-200): recomputes the
elapsed-time and throughput labels from `t0`, `t1`, `now` and the counters. -/
def update_time_stats (u : SuccessRateUI) (now : ℚ) : SuccessRateUI :=
  let elapsed := rawElapsed u now
  let total : ℚ := u.success + u.fail
  let ipm := per_minute total elapsed
  { u with lbl_time := fmt_hms elapsed, lbl_throughput := ipm }

/-- `start_session` (`src/py/cnt.py` lines 130-138): returns unchanged if
already running; else sets `running`, `t0 := now`, clears `t1`, starts the
timer and refreshes the time stats. -/
def start_session (u : SuccessRateUI) (now : ℚ) : SuccessRateUI :=
  if u.running then u
  else
    update_time_stats
      { u with running := true, t0 := some now, t1 := none, timerOn := true } now

/-- `finish_session` (`src/py/cnt.py` lines 140-147): returns unchanged if
not running; else clears `running`, sets `t1 := now`, stops the timer and
refreshes the time stats. -/
def finish_session (u : SuccessRateUI) (now : ℚ) : SuccessRateUI :=
  if u.running then
    update_time_stats
      { u with running := false, t1 := some now, timerOn := false } now
  else u

/-- `reset_session` (`src/py/cnt.py` lines 149-159): zeroes both counters,
clears `running` and both timestamps, stops the timer, refreshes both label
groups. -/
def reset_session (u : SuccessRateUI) (now : ℚ) : SuccessRateUI :=
  update_time_stats
    (update_stats
      { u with success := 0, fail := 0, running := false,
               t0 := none, t1 := none, timerOn := false }) now

/-- `on_success` (`src/py/cnt.py` lines 170-175): returns unchanged unless
running; else increments `success` and refreshes both label groups. -/
def on_success (u : SuccessRateUI) (now : ℚ) : SuccessRateUI :=
  if u.running then
    update_time_stats (update_stats { u with success := u.success + 1 }) now
  else u

/-- `on_fail` (`src/py/cnt.py` lines 177-182): returns unchanged unless
running; else increments `fail` and refreshes both label groups. -/
def on_fail (u : SuccessRateUI) (now : ℚ) : SuccessRateUI :=
  if u.running then
    update_time_stats (update_stats { u with fail := u.fail + 1 }) now
  else u

/-- Qt key code of the left arrow (`Qt.Key_Left`, 0x01000012). -/
def Key_Left : ℕ := 16777234

/-- Qt key code of the right arrow (`Qt.Key_Right`, 0x01000014). -/
def Key_Right : ℕ := 16777236

/-- `keyPressEvent` (`src/py/cnt.py` lines 203-212): when not running every
key falls through to the default handler (which touches none of these
fields); when running, Left records a fail, Right records a success, and any
other key falls through. -/
def keyPressEvent (u : SuccessRateUI) (k : ℕ) (now : ℚ) : SuccessRateUI :=
  if u.running then
    if k = Key_Left then on_fail u now
    else if k = Key_Right then on_success u now
    else u
  else u

/-- The state built by `__init__` (`src/py/cnt.py` lines 29-43, 121):
zero counters, not running, no timestamps, timer created but not started,
labels set to their constructor literals, then `update_stats()` is run
(`update_time_stats` is not run during `__init__`). -/
def initUI : SuccessRateUI :=
  update_stats
    { success := 0, fail := 0, running := false, t0 := none, t1 := none,
      timerOn := false, lbl_rate := (0, 0, 0), lbl_time := (0, 0, 0),
      lbl_throughput := 0 }

/-- The discrete events the UI event loop can deliver to the widget, each
carrying the wall-clock time at which it fires. -/
inductive Op where
  | start (now : ℚ)
  | finish (now : ℚ)
  | reset (now : ℚ)
  | succEvent (now : ℚ)
  | failEvent (now : ℚ)
  | tick (now : ℚ)
  | key (k : ℕ) (now : ℚ)
  deriving Repr

/-- Dispatch of one event to its handler. -/
def applyOp (u : SuccessRateUI) : Op → SuccessRateUI
  | .start now => start_session u now
  | .finish now => finish_session u now
  | .reset now => reset_session u now
  | .succEvent now => on_success u now
  | .failEvent now => on_fail u now
  | .tick now => update_time_stats u now
  | .key k now => keyPressEvent u k now

/-- A widget state reachable from `__init__` by some sequence of events. -/
inductive Reachable : SuccessRateUI → Prop where
  | init : Reachable initUI
  | step (u : SuccessRateUI) (op : Op) : Reachable u → Reachable (applyOp u op)

/-- The spec's timestamp invariant: `t1` is set iff the state is Finished,
and `t0` is unset only in the Idle state. -/
def SessionInv (u : SuccessRateUI) : Prop :=
  (u.t1.isSome = true ↔ stateOf u = .Finished) ∧
  (u.t0 = none → stateOf u = .Idle)

namespace V0

/-- The state of the earlier counter-only widget `src/cnt.py` (lines 16-17,
22): two counters and the rate label, with no session machinery. -/
structure SuccessRateUI where
  success : ℕ
  fail : ℕ
  lbl : ℚ × ℕ × ℕ
  deriving Repr, DecidableEq

/-- `update_rate` (`src/cnt.py` lines 70-72). -/
def update_rate (u : SuccessRateUI) : SuccessRateUI :=
  let total := u.success + u.fail
  { u with lbl := (pct u.success total, u.success, total) }

/-- `on_success` (`src/cnt.py` lines 62-64): unconditional increment. -/
def on_success (u : SuccessRateUI) : SuccessRateUI :=
  update_rate { u with success := u.success + 1 }

/-- `on_fail` (`src/cnt.py` lines 66-68): unconditional increment. -/
def on_fail (u : SuccessRateUI) : SuccessRateUI :=
  update_rate { u with fail := u.fail + 1 }

/-- `keyPressEvent` (`src/cnt.py` lines 75-82): Left records a fail, Right a
success, anything else falls through to the default handler. -/
def keyPressEvent (u : SuccessRateUI) (k : ℕ) : SuccessRateUI :=
  if k = Key_Left then on_fail u
  else if k = Key_Right then on_success u
  else u

end V0

section Helpers

/-- `update_stats` touches only the rate label. -/
lemma update_stats_core (u : SuccessRateUI) :
    (update_stats u).success = u.success ∧ (update_stats u).fail = u.fail ∧
    (update_stats u).running = u.running ∧ (update_stats u).t0 = u.t0 ∧
    (update_stats u).t1 = u.t1 ∧ (update_stats u).timerOn = u.timerOn :=
  ⟨rfl, rfl, rfl, rfl, rfl, rfl⟩

/-- `update_time_stats` touches only the time and throughput labels. -/
lemma update_time_stats_core (u : SuccessRateUI) (now : ℚ) :
    (update_time_stats u now).success = u.success ∧
    (update_time_stats u now).fail = u.fail ∧
    (update_time_stats u now).running = u.running ∧
    (update_time_stats u now).t0 = u.t0 ∧
    (update_time_stats u now).t1 = u.t1 ∧
    (update_time_stats u now).timerOn = u.timerOn :=
  ⟨rfl, rfl, rfl, rfl, rfl, rfl⟩

/-- The spec's Running state is exactly the widget's `running` flag. -/
lemma stateOf_running_iff (u : SuccessRateUI) :
    stateOf u = .Running ↔ u.running = true := by
  cases hr : u.running <;> cases ht : u.t1 <;> simp [stateOf, hr, ht]

/-- `SessionInv` depends only on the `running`, `t0` and `t1` fields. -/
lemma sessionInv_of_core (u v : SuccessRateUI) (h1 : v.running = u.running)
    (h2 : v.t0 = u.t0) (h3 : v.t1 = u.t1) (h : SessionInv u) : SessionInv v := by
  unfold SessionInv stateOf at h ⊢
  rw [h1, h2, h3]
  exact h

end Helpers

/-- **C9.** The periodic tick handler `update_time_stats` mutates no session
state: counters, running flag, both timestamps and the timer flag are left
exactly as they were; only the derived display labels are recomputed. -/
theorem tick_no_state_mutation (u : SuccessRateUI) (now : ℚ) :
    (update_time_stats u now).success = u.success ∧
    (update_time_stats u now).fail = u.fail ∧
    (update_time_stats u now).running = u.running ∧
    (update_time_stats u now).t0 = u.t0 ∧
    (update_time_stats u now).t1 = u.t1 ∧
    (update_time_stats u now).timerOn = u.timerOn :=
  ⟨rfl, rfl, rfl, rfl, rfl, rfl⟩

/-- **C3.** For every total `t ≥ 0` and every elapsed value `e`,
`per_minute` returns `0` whenever `e ≤ 0` (the division is never reached),
and returns `t * 60 / e` whenever `e > 0`. -/
theorem throughput_per_minute_spec (t e : ℚ) (ht : 0 ≤ t) :
    (e ≤ 0 → per_minute t e = 0) ∧ (0 < e → per_minute t e = t * 60 / e) := by
  constructor
  · intro h
    simp [per_minute, h]
  · intro h
    simp [per_minute, not_le.mpr h]

/-- Witness for C3 at `t = 5`, `e = 2`. -/
theorem throughput_per_minute_spec_witness :
    per_minute 5 2 = 5 * 60 / 2 :=
  (throughput_per_minute_spec 5 2 (by norm_num)).2 (by norm_num)

/-- The spec's sample run: `start()` at t=0, then three `recordSuccess()`
and one `recordFail()`. -/
def scenarioState : SuccessRateUI :=
  on_fail (on_success (on_success (on_success (start_session initUI 0) 1) 2) 3) 4

/-- **C2.** `pct` applied to the success count and the total returns `0`
when the total is `0` and `100 * s / (s + f)` otherwise; after `start()`,
three `recordSuccess()` and one `recordFail()` it returns `75`. -/
theorem success_rate_percent_spec (s f : ℕ) :
    ((s + f : ℕ) = 0 → pct (s : ℚ) ((s + f : ℕ) : ℚ) = 0) ∧
    (0 < s + f → pct (s : ℚ) ((s + f : ℕ) : ℚ) = 100 * s / ((s + f : ℕ) : ℚ)) ∧
    pct (scenarioState.success : ℚ)
      ((scenarioState.success + scenarioState.fail : ℕ) : ℚ) = 75 := by
  refine ⟨?_, ?_, ?_⟩
  · intro h
    simp [pct, h]
  · intro h
    have hd : ((s + f : ℕ) : ℚ) ≠ 0 := Nat.cast_ne_zero.mpr h.ne'
    rw [pct, if_neg hd, div_mul_eq_mul_div, mul_comm]
  · have hs : scenarioState.success = 3 := by decide
    have hf : scenarioState.fail = 1 := by decide
    rw [hs, hf]
    norm_num [pct]

/-- Witness for C2 at `s = 3`, `f = 1`. -/
theorem success_rate_percent_spec_witness :
    pct ((3 : ℕ) : ℚ) (((3 + 1 : ℕ)) : ℚ) = 100 * (3 : ℕ) / (((3 + 1 : ℕ)) : ℚ) :=
  (success_rate_percent_spec 3 1).2.1 (by decide)

/-- **C4.** `start_session` is a no-op while Running; from Idle or Finished
it moves to Running, stamps `t0 := now`, clears `t1`, and leaves both
counters untouched. -/
theorem start_session_spec (u : SuccessRateUI) (now : ℚ) :
    (stateOf u = .Running → start_session u now = u) ∧
    (stateOf u ≠ .Running →
      stateOf (start_session u now) = .Running ∧
      (start_session u now).t0 = some now ∧
      (start_session u now).t1 = none ∧
      (start_session u now).success = u.success ∧
      (start_session u now).fail = u.fail) := by
  cases hr : u.running
  · refine ⟨fun h => absurd ((stateOf_running_iff u).mp h) (by simp [hr]), fun _ => ?_⟩
    simp [start_session, hr, update_time_stats, stateOf]
  · refine ⟨fun _ => by simp [start_session, hr], fun h => ?_⟩
    exact absurd ((stateOf_running_iff u).mpr hr) h

/-- Witness for C4: starting the freshly constructed widget at t=0. -/
theorem start_session_spec_witness :
    stateOf (start_session initUI 0) = .Running ∧
    (start_session initUI 0).t0 = some 0 :=
  ⟨((start_session_spec initUI 0).2 (by decide)).1,
   ((start_session_spec initUI 0).2 (by decide)).2.1⟩

/-- **C5.** `finish_session` is a no-op unless Running; from Running it
moves to Finished with `t1 := now`, after which the elapsed value no longer
depends on the clock; in the sample run (start at t=0, finish at t=10) the
elapsed value is 10 at every later time, displayed as 00:00:10. -/
theorem finish_session_spec (u : SuccessRateUI) (now : ℚ) :
    (stateOf u ≠ .Running → finish_session u now = u) ∧
    (stateOf u = .Running →
      stateOf (finish_session u now) = .Finished ∧
      (finish_session u now).t1 = some now ∧
      ∀ now2 now3 : ℚ,
        rawElapsed (finish_session u now) now2 =
          rawElapsed (finish_session u now) now3) ∧
    (∀ now2 : ℚ,
      rawElapsed (finish_session (start_session initUI 0) 10) now2 = 10 ∧
      fmt_hms (rawElapsed (finish_session (start_session initUI 0) 10) now2) =
        (0, 0, 10)) := by
  refine ⟨?_, ?_, ?_⟩
  · intro h
    have hr : u.running = false := by
      cases hr : u.running
      · rfl
      · exact absurd ((stateOf_running_iff u).mpr hr) h
    simp [finish_session, hr]
  · intro h
    have hr : u.running = true := (stateOf_running_iff u).mp h
    refine ⟨by simp [finish_session, hr, update_time_stats, stateOf], ?_, ?_⟩
    · simp [finish_session, hr, update_time_stats]
    · intro now2 now3
      simp only [finish_session, hr, if_true]
      cases h0 : u.t0 <;> simp [rawElapsed, update_time_stats, h0]
  · intro now2
    have h10 : rawElapsed (finish_session (start_session initUI 0) 10) now2 = 10 := by
      simp [start_session, finish_session, initUI, update_stats,
        update_time_stats, rawElapsed]
    refine ⟨h10, ?_⟩
    rw [h10]
    decide

/-- Witness for C5: finishing a just-started session at t=10. -/
theorem finish_session_spec_witness :
    stateOf (finish_session (start_session initUI 0) 10) = .Finished ∧
    (finish_session (start_session initUI 0) 10).t1 = some 10 :=
  ⟨((finish_session_spec (start_session initUI 0) 10).2.1 (by decide)).1,
   ((finish_session_spec (start_session initUI 0) 10).2.1 (by decide)).2.1⟩

/-- **C6.** `reset_session`, from any state, zeroes both counters, returns
to Idle, clears both timestamps, and the elapsed value is 0 at every later
time. -/
theorem reset_session_spec (u : SuccessRateUI) (now : ℚ) :
    (reset_session u now).success = 0 ∧
    (reset_session u now).fail = 0 ∧
    stateOf (reset_session u now) = .Idle ∧
    (reset_session u now).t0 = none ∧
    (reset_session u now).t1 = none ∧
    ∀ now2 : ℚ, rawElapsed (reset_session u now) now2 = 0 := by
  refine ⟨rfl, rfl, ?_, rfl, rfl, fun now2 => ?_⟩
  · simp [reset_session, update_stats, update_time_stats, stateOf]
  · simp [reset_session, update_stats, update_time_stats, rawElapsed]

/-- `on_success` leaves the running flag and both timestamps unchanged. -/
lemma on_success_core (u : SuccessRateUI) (now : ℚ) :
    (on_success u now).running = u.running ∧ (on_success u now).t0 = u.t0 ∧
    (on_success u now).t1 = u.t1 := by
  cases hr : u.running <;> simp [on_success, hr, update_stats, update_time_stats]

/-- `on_fail` leaves the running flag and both timestamps unchanged. -/
lemma on_fail_core (u : SuccessRateUI) (now : ℚ) :
    (on_fail u now).running = u.running ∧ (on_fail u now).t0 = u.t0 ∧
    (on_fail u now).t1 = u.t1 := by
  cases hr : u.running <;> simp [on_fail, hr, update_stats, update_time_stats]

/-- `keyPressEvent` leaves the running flag and both timestamps unchanged. -/
lemma keyPressEvent_core (u : SuccessRateUI) (k : ℕ) (now : ℚ) :
    (keyPressEvent u k now).running = u.running ∧
    (keyPressEvent u k now).t0 = u.t0 ∧ (keyPressEvent u k now).t1 = u.t1 := by
  cases hr : u.running
  · simp [keyPressEvent, hr]
  · by_cases hk1 : k = Key_Left
    · simpa [keyPressEvent, hr, hk1] using on_fail_core u now
    · by_cases hk2 : k = Key_Right
      · simpa [keyPressEvent, hr, hk1, hk2] using on_success_core u now
      · simp [keyPressEvent, hr, hk1, hk2]

/-- **C1.** In every reachable state, `on_success`/`on_fail` while Running
increment exactly their own counter by 1 and leave the running flag, the
timestamps and the timer untouched; while not Running (Idle or Finished)
they are complete silent no-ops. -/
theorem record_only_when_running (u : SuccessRateUI) (now : ℚ)
    (h : Reachable u) :
    (stateOf u = .Running →
      (on_success u now).success = u.success + 1 ∧
      (on_success u now).fail = u.fail ∧
      (on_success u now).running = u.running ∧
      (on_success u now).t0 = u.t0 ∧
      (on_success u now).t1 = u.t1 ∧
      (on_success u now).timerOn = u.timerOn ∧
      (on_fail u now).fail = u.fail + 1 ∧
      (on_fail u now).success = u.success ∧
      (on_fail u now).running = u.running ∧
      (on_fail u now).t0 = u.t0 ∧
      (on_fail u now).t1 = u.t1 ∧
      (on_fail u now).timerOn = u.timerOn) ∧
    (stateOf u ≠ .Running → on_success u now = u ∧ on_fail u now = u) := by
  cases hr : u.running
  · refine ⟨fun hx => absurd ((stateOf_running_iff u).mp hx) (by simp [hr]),
      fun _ => ?_⟩
    simp [on_success, on_fail, hr]
  · refine ⟨fun _ => ?_, fun hx => absurd ((stateOf_running_iff u).mpr hr) hx⟩
    simp [on_success, on_fail, hr, update_stats, update_time_stats]

/-- Witness for C1: recording on the just-started (hence Running) widget. -/
theorem record_only_when_running_witness :
    (on_success (start_session initUI 0) 1).success =
      (start_session initUI 0).success + 1 ∧
    (on_fail (start_session initUI 0) 1).fail =
      (start_session initUI 0).fail + 1 :=
  ⟨((record_only_when_running (start_session initUI 0) 1
      (Reachable.step initUI (Op.start 0) Reachable.init)).1 (by decide)).1,
   ((record_only_when_running (start_session initUI 0) 1
      (Reachable.step initUI (Op.start 0) Reachable.init)).1
        (by decide)).2.2.2.2.2.2.1⟩

/-- **C7.** The timestamp invariant (`t1` set iff Finished; `t0` unset only
when Idle) holds initially, is preserved by every event, and therefore
holds in every reachable state. -/
theorem session_timestamp_invariant :
    SessionInv initUI ∧
    (∀ (u : SuccessRateUI) (op : Op), SessionInv u → SessionInv (applyOp u op)) ∧
    (∀ u : SuccessRateUI, Reachable u → SessionInv u) := by
  have base : SessionInv initUI := by
    simp [SessionInv, initUI, update_stats, stateOf]
  have pres : ∀ (u : SuccessRateUI) (op : Op),
      SessionInv u → SessionInv (applyOp u op) := by
    intro u op h
    cases op with
    | start now =>
      cases hr : u.running
      · simp [SessionInv, applyOp, start_session, hr, update_time_stats, stateOf]
      · simpa [applyOp, start_session, hr] using h
    | finish now =>
      cases hr : u.running
      · simpa [applyOp, finish_session, hr] using h
      · have ht0 : u.t0 ≠ none := fun h0 => by
          simpa [stateOf, hr] using h.2 h0
        cases h0 : u.t0 with
        | none => exact absurd h0 ht0
        | some a =>
          simp [SessionInv, applyOp, finish_session, hr, update_time_stats,
            stateOf, h0]
    | reset now =>
      simp [SessionInv, applyOp, reset_session, update_stats,
        update_time_stats, stateOf]
    | succEvent now =>
      exact sessionInv_of_core u (on_success u now) (on_success_core u now).1
        (on_success_core u now).2.1 (on_success_core u now).2.2 h
    | failEvent now =>
      exact sessionInv_of_core u (on_fail u now) (on_fail_core u now).1
        (on_fail_core u now).2.1 (on_fail_core u now).2.2 h
    | tick now =>
      exact sessionInv_of_core u (update_time_stats u now) rfl rfl rfl h
    | key k now =>
      exact sessionInv_of_core u (keyPressEvent u k now)
        (keyPressEvent_core u k now).1 (keyPressEvent_core u k now).2.1
        (keyPressEvent_core u k now).2.2 h
  refine ⟨base, pres, ?_⟩
  intro u h
  induction h with
  | init => exact base
  | step v op hv ih => exact pres v op ih

/-- Witness for C7: the invariant instantiated at the initial state. -/
theorem session_timestamp_invariant_witness : SessionInv initUI :=
  session_timestamp_invariant.2.2 initUI Reachable.init

/-- **C8.** The elapsed computation returns `0` when `t0` is unset and
`(t1 if set else now) - t0` when set; the value fed to the display is its
floor clamped below at 0, hence never negative. -/
theorem elapsed_seconds_spec (u : SuccessRateUI) (now : ℚ) :
    (u.t0 = none → rawElapsed u now = 0) ∧
    (∀ a : ℚ, u.t0 = some a → rawElapsed u now = u.t1.getD now - a) ∧
    (∀ s : ℚ, (clampSecs s : ℤ) = ⌊max 0 s⌋ ∧ (0 : ℤ) ≤ (clampSecs s : ℤ)) := by
  refine ⟨?_, ?_, ?_⟩
  · intro h0
    simp [rawElapsed, h0]
  · intro a h0
    simp [rawElapsed, h0]
  · intro s
    have hf : (0 : ℤ) ≤ ⌊max 0 s⌋ := Int.floor_nonneg.mpr (le_max_left 0 s)
    exact ⟨by simpa [clampSecs] using Int.toNat_of_nonneg hf,
      Int.natCast_nonneg _⟩

/-- Witness for C8: a running session started at t=0, read at t=7. -/
theorem elapsed_seconds_spec_witness :
    rawElapsed (start_session initUI 0) 7 =
      (start_session initUI 0).t1.getD 7 - 0 :=
  (elapsed_seconds_spec (start_session initUI 0) 7).2.1 0 (by decide)

/-- The state built by `__init__` of the counter-only widget
(`src/cnt.py` lines 11-22): zero counters, rate label at its constructor
literal. -/
def V0.initUI : V0.SuccessRateUI :=
  { success := 0, fail := 0, lbl := (0, 0, 0) }

/-- **C10.** A key press that is neither Left-arrow nor Right-arrow never
changes either counter, in any state, in both variants of the widget. -/
theorem key_press_frame_effect (u : SuccessRateUI) (v : V0.SuccessRateUI)
    (k : ℕ) (now : ℚ) (hL : k ≠ Key_Left) (hR : k ≠ Key_Right) :
    (keyPressEvent u k now).success = u.success ∧
    (keyPressEvent u k now).fail = u.fail ∧
    (V0.keyPressEvent v k).success = v.success ∧
    (V0.keyPressEvent v k).fail = v.fail := by
  cases hr : u.running <;>
    simp [keyPressEvent, V0.keyPressEvent, hr, hL, hR]

/-- Witness for C10: the Enter/Return key (Qt code 16777220) on the fresh
widgets. -/
theorem key_press_frame_effect_witness :
    (keyPressEvent initUI 16777220 0).success = initUI.success ∧
    (keyPressEvent initUI 16777220 0).fail = initUI.fail ∧
    (V0.keyPressEvent V0.initUI 16777220).success = V0.initUI.success ∧
    (V0.keyPressEvent V0.initUI 16777220).fail = V0.initUI.fail :=
  key_press_frame_effect initUI V0.initUI 16777220 0 (by decide) (by decide)
